import Mathlib

/-!
Verification of the cognito-chatbot-app repository: a shallow embedding of
the JWT-claims reader, the role-based authorization policy, the Next.js
edge middleware, the chatbot and admin Lambda handlers, and the chatbot
proxy API route, together with theorems settling the
claims about them.

JavaScript values that flow through the modelled code are embedded as the
inductive `Json` below; machine floating-point numbers do not occur in any
modelled claim value, so JSON numbers are modelled as integers.  JavaScript
string primitives are modelled as Lean `String`, with the JS string
operations (split, trim, startsWith, includes, ...) re-implemented over
`List Char` so that every definition evaluates by kernel reduction.
-/

set_option maxRecDepth 100000

namespace CognitoChatbot

/-- A JSON / JavaScript value.  JSON numbers are modelled as integers: every
numeric claim value occurring in the modelled code (the `exp` Unix-seconds
claim, HTTP status codes) is integral. -/
inductive Json where
  | null : Json
  | bool (b : Bool) : Json
  | num (n : Int) : Json
  | str (s : String) : Json
  | arr (elems : List Json) : Json
  | obj (fields : List (String × Json)) : Json

/-- Property lookup `v[key]` as JavaScript performs it: `undefined` (here
`none`) on any non-object receiver or missing key; first binding wins. -/
def jsGet (v : Json) (key : String) : Option Json :=
  match v with
  | .obj fields => lookupField fields
  | _ => none
where lookupField : List (String × Json) → Option Json
  | [] => none
  | (k, x) :: rest => if k = key then some x else lookupField rest

/-- JavaScript truthiness of a (defined) value. -/
def jsTruthy : Json → Bool
  | .null => false
  | .bool b => b
  | .num n => !(n = 0)
  | .str s => !(s = "")
  | .arr _ => true
  | .obj _ => true

/-- JavaScript truthiness of a possibly-`undefined` value. -/
def jsTruthyOpt : Option Json → Bool
  | none => false
  | some v => jsTruthy v

/-- JavaScript strict equality `v === s` against a string literal: true only
when `v` is a string with the same contents. -/
def jsStrictEqStr (v : Json) (s : String) : Bool :=
  match v with
  | .str t => t = s
  | _ => false

/-- Strict equality against a string literal for a possibly-null receiver
(`null === "admin"` is false). -/
def jsStrictEqStrOpt (v : Option Json) (s : String) : Bool :=
  match v with
  | some w => jsStrictEqStr w s
  | none => false

/-- The JS `a || b` on two possibly-absent strings: the first truthy operand,
otherwise the value of `b` (which may itself be absent or empty). -/
def jsOrString (a b : Option String) : Option String :=
  match a with
  | some s => if s = "" then b else some s
  | none => b

/-- Whether a possibly-absent string is truthy (`undefined`, `null` and the
empty string are falsy). -/
def strTruthy : Option String → Bool
  | none => false
  | some s => !(s = "")

/- ### JavaScript string operations over `List Char`

The core-library `String` functions do not reduce inside the kernel, so the
string operations the modelled code uses are re-implemented structurally. -/

/-- `pat.isPrefixOf l` specialised to characters (JS `String.startsWith`
on the underlying character lists). -/
def charsPrefixOf : List Char → List Char → Bool
  | [], _ => true
  | _ :: _, [] => false
  | p :: ps, c :: cs => p = c && charsPrefixOf ps cs

/-- JS `String.includes` on the underlying character lists: `pat` occurs
contiguously inside `l`. -/
def charsInfixOf (pat : List Char) : List Char → Bool
  | [] => charsPrefixOf pat []
  | c :: cs => charsPrefixOf pat (c :: cs) || charsInfixOf pat cs

/-- JS `s.startsWith p`. -/
def jsStartsWith (s p : String) : Bool := charsPrefixOf p.toList s.toList

/-- JS `s.endsWith p`. -/
def jsEndsWith (s p : String) : Bool :=
  charsPrefixOf p.toList.reverse s.toList.reverse

/-- JS `s.includes p`. -/
def jsIncludes (s p : String) : Bool := charsInfixOf p.toList s.toList

/-- JS `s.substring n` / `s.slice n`: drop the first `n` characters. -/
def jsDropChars (s : String) (n : Nat) : String := ⟨s.toList.drop n⟩

/-- JS `s.trim`: strip leading and trailing whitespace. -/
def jsTrim (s : String) : String :=
  ⟨(((s.toList.dropWhile Char.isWhitespace).reverse.dropWhile
      Char.isWhitespace).reverse)⟩

/-- JS `s.split sep` for a single-character separator: the list of
(possibly empty) chunks between occurrences of `sep`. -/
def charSplit (sep : Char) : List Char → List (List Char)
  | [] => [[]]
  | c :: cs =>
      let rest := charSplit sep cs
      if c = sep then [] :: rest
      else match rest with
        | [] => [[c]]
        | chunk :: chunks => (c :: chunk) :: chunks

/-- JS `token.split "."` as performed by the JWT decoder. -/
def jsSplitDot (s : String) : List String :=
  (charSplit '.' s.toList).map fun cs => ⟨cs⟩

/- ### Base64 decoding (Node `Buffer.from(s, "base64")`)

the Node base64 decoder is lenient: characters outside the alphabet (and
padding) are skipped, both the standard and the url-safe alphabets are
accepted, and a trailing group of fewer than four symbols yields the bytes
it fully determines. -/

/-- Value of one base64 symbol; `none` for characters outside both the
standard and the url-safe alphabet (Node skips those). -/
def b64Val (c : Char) : Option Nat :=
  let n := c.toNat
  if 65 ≤ n && n ≤ 90 then some (n - 65)
  else if 97 ≤ n && n ≤ 122 then some (n - 71)
  else if 48 ≤ n && n ≤ 57 then some (n + 4)
  else if c = '+' || c = '-' then some 62
  else if c = '/' || c = '_' then some 63
  else none

/-- Regroup 6-bit base64 values into 8-bit bytes, four symbols to three
bytes, with the Node handling of a short trailing group. -/
def b64Regroup : List Nat → List Nat
  | a :: b :: c :: d :: rest =>
      (a * 4 + b / 16) :: ((b % 16) * 16 + c / 4) :: ((c % 4) * 64 + d) ::
        b64Regroup rest
  | [a, b] => [a * 4 + b / 16]
  | [a, b, c] => [a * 4 + b / 16, (b % 16) * 16 + c / 4]
  | _ => []

/-- Whether a byte is a UTF-8 continuation byte. -/
def isCont (b : Nat) : Bool := 128 ≤ b && b < 192

/-- The Unicode replacement character U+FFFD, emitted by the lossy Node
`toString("utf-8")` for malformed byte sequences. -/
def replChar : Char := Char.ofNat 0xFFFD

/-- Lossy UTF-8 decoding of a byte list (Node `buffer.toString("utf-8")`):
total, never failing, substituting U+FFFD for malformed sequences.  The
exact number of replacement characters Node emits for a given malformed run
may differ; every byte sequence appearing in a theorem below is ASCII. -/
def utf8Go : Nat → List Nat → List Char
  | 0, _ => []
  | _ + 1, [] => []
  | fuel + 1, b :: rest =>
    if b < 128 then Char.ofNat b :: utf8Go fuel rest
    else if 194 ≤ b && b ≤ 223 then
      match rest with
      | b2 :: r2 =>
        if isCont b2 then
          Char.ofNat ((b - 192) * 64 + (b2 - 128)) :: utf8Go fuel r2
        else replChar :: utf8Go fuel rest
      | [] => [replChar]
    else if 224 ≤ b && b ≤ 239 then
      match rest with
      | b2 :: b3 :: r3 =>
        if isCont b2 && isCont b3 then
          let cp := (b - 224) * 4096 + (b2 - 128) * 64 + (b3 - 128)
          (if 2048 ≤ cp && !(55296 ≤ cp && cp ≤ 57343) then Char.ofNat cp
           else replChar) :: utf8Go fuel r3
        else replChar :: utf8Go fuel rest
      | _ => replChar :: utf8Go fuel rest.tail
    else if 240 ≤ b && b ≤ 244 then
      match rest with
      | b2 :: b3 :: b4 :: r4 =>
        if isCont b2 && isCont b3 && isCont b4 then
          let cp := (b - 240) * 262144 + (b2 - 128) * 4096 +
            (b3 - 128) * 64 + (b4 - 128)
          (if 65536 ≤ cp && cp ≤ 1114111 then Char.ofNat cp
           else replChar) :: utf8Go fuel r4
        else replChar :: utf8Go fuel rest
      | _ => replChar :: utf8Go fuel rest.tail
    else replChar :: utf8Go fuel rest

/-- Lossy UTF-8 decoding of a byte list into a string. -/
def utf8Decode (bytes : List Nat) : String := ⟨utf8Go (bytes.length + 1) bytes⟩

/-- Node `Buffer.from(s, "base64").toString("utf-8")`: lenient base64
decoding followed by lossy UTF-8 decoding.  Total: never throws. -/
def b64ToUtf8 (s : String) : String :=
  utf8Decode (b64Regroup (s.toList.filterMap b64Val))

/- ### A JSON parser (model of the platform `JSON.parse`)

Model deviations, none reachable from any value used in a theorem below:
JSON numbers with a fraction or exponent part are not accepted (every
number in the modelled data is integral), and a `\uXXXX` escape denoting a
surrogate is decoded to U+FFFD instead of being paired. -/

/-- Skip JSON insignificant whitespace. -/
def skipWs (cs : List Char) : List Char :=
  cs.dropWhile fun c => c = ' ' || c = '\t' || c = '\n' || c = '\r'

/-- Value of a hexadecimal digit. -/
def hexVal (c : Char) : Option Nat :=
  let n := c.toNat
  if 48 ≤ n && n ≤ 57 then some (n - 48)
  else if 97 ≤ n && n ≤ 102 then some (n - 87)
  else if 65 ≤ n && n ≤ 70 then some (n - 55)
  else none

/-- Parse the body of a JSON string literal after the opening quote,
returning the decoded string and the input after the closing quote. -/
def parseStringBody : List Char → Option (String × List Char)
  | [] => none
  | '"' :: rest => some ("", rest)
  | '\\' :: esc =>
    match esc with
    | 'u' :: h1 :: h2 :: h3 :: h4 :: rest =>
      match hexVal h1, hexVal h2, hexVal h3, hexVal h4 with
      | some v1, some v2, some v3, some v4 =>
        let cp := v1 * 4096 + v2 * 256 + v3 * 16 + v4
        let c := if 55296 ≤ cp && cp ≤ 57343 then replChar else Char.ofNat cp
        (parseStringBody rest).map fun (s, r) => (⟨c :: s.toList⟩, r)
      | _, _, _, _ => none
    | e :: rest =>
      let c? : Option Char :=
        if e = '"' then some '"'
        else if e = '\\' then some '\\'
        else if e = '/' then some '/'
        else if e = 'n' then some '\n'
        else if e = 't' then some '\t'
        else if e = 'r' then some '\r'
        else if e = 'b' then some (Char.ofNat 8)
        else if e = 'f' then some (Char.ofNat 12)
        else none
      match c? with
      | some c => (parseStringBody rest).map fun (s, r) => (⟨c :: s.toList⟩, r)
      | none => none
    | [] => none
  | c :: rest =>
    if c.toNat < 32 then none
    else (parseStringBody rest).map fun (s, r) => (⟨c :: s.toList⟩, r)

/-- Split a leading run of decimal digits. -/
def spanDigits : List Char → (List Char × List Char)
  | [] => ([], [])
  | c :: cs =>
    if c.isDigit then
      let (ds, r) := spanDigits cs
      (c :: ds, r)
    else ([], c :: cs)

/-- Natural number denoted by a digit run. -/
def digitsToNat : List Char → Nat → Nat
  | [], acc => acc
  | d :: ds, acc => digitsToNat ds (acc * 10 + (d.toNat - 48))

/-- Parse a JSON integer literal. -/
def parseNumber : List Char → Option (Json × List Char)
  | '-' :: rest =>
    match spanDigits rest with
    | ([], _) => none
    | (ds, r) => some (.num (-(digitsToNat ds 0 : Int)), r)
  | cs =>
    match spanDigits cs with
    | ([], _) => none
    | (ds, r) => some (.num (digitsToNat ds 0 : Int), r)

mutual

/-- Parse one JSON value, fuel-bounded. -/
def parseValue : Nat → List Char → Option (Json × List Char)
  | 0, _ => none
  | fuel + 1, cs =>
    match skipWs cs with
    | 'n' :: 'u' :: 'l' :: 'l' :: rest => some (.null, rest)
    | 't' :: 'r' :: 'u' :: 'e' :: rest => some (.bool true, rest)
    | 'f' :: 'a' :: 'l' :: 's' :: 'e' :: rest => some (.bool false, rest)
    | '"' :: rest => (parseStringBody rest).map fun (s, r) => (.str s, r)
    | '[' :: rest =>
      (match skipWs rest with
       | ']' :: rest' => some (.arr [], rest')
       | rest' => (parseItems fuel rest').map fun (xs, r) => (.arr xs, r))
    | '{' :: rest =>
      (match skipWs rest with
       | '}' :: rest' => some (.obj [], rest')
       | rest' => (parseFields fuel rest').map fun (fs, r) => (.obj fs, r))
    | c :: rest =>
      if c = '-' || c.isDigit then parseNumber (c :: rest) else none
    | [] => none

/-- Parse the comma-separated items of a non-empty JSON array up to and
including the closing bracket. -/
def parseItems : Nat → List Char → Option (List Json × List Char)
  | 0, _ => none
  | fuel + 1, cs =>
    match parseValue fuel cs with
    | none => none
    | some (v, r) =>
      match skipWs r with
      | ',' :: r' => (parseItems fuel r').map fun (xs, rr) => (v :: xs, rr)
      | ']' :: r' => some ([v], r')
      | _ => none

/-- Parse the comma-separated members of a non-empty JSON object up to and
including the closing brace. -/
def parseFields : Nat → List Char → Option (List (String × Json) × List Char)
  | 0, _ => none
  | fuel + 1, cs =>
    match skipWs cs with
    | '"' :: rest =>
      match parseStringBody rest with
      | none => none
      | some (key, r) =>
        match skipWs r with
        | ':' :: r' =>
          match parseValue fuel r' with
          | none => none
          | some (v, r'') =>
            match skipWs r'' with
            | ',' :: r3 =>
              (parseFields fuel r3).map fun (fs, rr) => ((key, v) :: fs, rr)
            | '}' :: r3 => some ([(key, v)], r3)
            | _ => none
        | _ => none
    | _ => none

end

/-- The platform `JSON.parse`, modelled: `none` exactly when parsing fails
(where `JSON.parse` throws a `SyntaxError`). -/
def jsonParse (s : String) : Option Json :=
  match parseValue (2 * s.toList.length + 4) s.toList with
  | some (v, rest) => if (skipWs rest).isEmpty then some v else none
  | none => none

/-- Decimal digits of a natural number (fuel-bounded quotient recursion). -/
def natDigitsGo : Nat → Nat → List Char
  | 0, _ => []
  | fuel + 1, n =>
    if n < 10 then [Char.ofNat (48 + n)]
    else natDigitsGo fuel (n / 10) ++ [Char.ofNat (48 + n % 10)]

/-- Decimal rendering of a natural number (JS number-to-string for the
non-negative integers the modelled code interpolates). -/
def natToString (n : Nat) : String := ⟨natDigitsGo (n + 1) n⟩

/-- JS template-literal stringification `String(v)`.  Approximation: a
non-empty array stringifies to its comma-joined elements in JS and to `""`
here; no theorem below interpolates an array. -/
def jsToString : Json → String
  | .null => "null"
  | .bool b => if b then "true" else "false"
  | .num n => if n < 0 then "-" ++ natToString n.natAbs else natToString n.natAbs
  | .str s => s
  | .arr _ => ""
  | .obj _ => "[object Object]"

/-- Template-literal stringification of a possibly-`undefined` value
(JS renders `undefined` as the text `undefined`). -/
def jsToStringOpt : Option Json → String
  | none => "undefined"
  | some v => jsToString v

/-- JS `Number(v)` coercion used by the relational compare `exp < now`,
returning `none` for NaN.  Approximation: a non-empty array or an object
coerces via its string form in JS and to NaN here; no theorem below
compares such a value. -/
def jsToNumber : Json → Option Int
  | .num n => some n
  | .bool b => some (if b then 1 else 0)
  | .null => some 0
  | .str s =>
    (match (jsTrim s).toList with
     | [] => some 0
     | '-' :: ds =>
       if ds.isEmpty then none
       else if ds.all Char.isDigit then some (-(digitsToNat ds 0 : Int))
       else none
     | ds =>
       if ds.all Char.isDigit then some ((digitsToNat ds 0 : Int)) else none)
  | .arr [] => some 0
  | .arr (_ :: _) => none
  | .obj _ => none

/-- JS `v < now`: false whenever the coercion of `v` is NaN. -/
def jsLtNum (v : Json) (now : Int) : Bool :=
  match jsToNumber v with
  | some n => n < now
  | none => false

/- ### middleware.js — Next.js edge middleware -/

/-- `decodeJWT` of `middleware.js`: split on `.`; `null` unless exactly 3
segments; base64-decode the middle segment and `JSON.parse` it; the
surrounding try/catch turns the only throwing step (`JSON.parse`) into
`null`.  Total: never throws. -/
def decodeJWT (token : String) : Option Json :=
  let parts := jsSplitDot token
  if parts.length ≠ 3 then none
  else jsonParse (b64ToUtf8 (parts.getD 1 ""))

/-- `getIdTokenFromCookies` of `middleware.js`: first cookie whose name
contains `CognitoIdentityServiceProvider` and ends in `.idToken`. -/
def getIdTokenFromCookies : List (String × String) → Option String
  | [] => none
  | (name, value) :: rest =>
    if jsIncludes name "CognitoIdentityServiceProvider" &&
        jsEndsWith name ".idToken" then some value
    else getIdTokenFromCookies rest

/-- `getUserRole` of `middleware.js`: `decodeJWT(token)?.["custom:role"] || null`,
so a falsy role claim (absent, `null`, `""`, `0`, `false`) yields `null`. -/
def getUserRole (token : String) : Option Json :=
  match decodeJWT token with
  | none => none
  | some claims =>
    match jsGet claims "custom:role" with
    | some v => if jsTruthy v then some v else none
    | none => none

/-- `isTokenExpired` of `middleware.js`: true when the payload cannot be
decoded or its `exp` claim is falsy, otherwise `claims.exp < currentTime`
with `currentTime` in Unix seconds. -/
def isTokenExpired (now : Int) (token : String) : Bool :=
  match decodeJWT token with
  | none => true
  | some claims =>
    match jsGet claims "exp" with
    | none => true
    | some expv => if !(jsTruthy expv) then true else jsLtNum expv now

/-- `checkAuthorization` of `middleware.js`: the two-tier ABAC policy.
`none` models the JS `null` argument. -/
def checkAuthorization (userRole : Option Json) (pathname : String) : Bool :=
  if jsStrictEqStrOpt userRole "admin" then true
  else if jsStrictEqStrOpt userRole "user" then
    if jsStartsWith pathname "/admin" then false else true
  else false

/-- The public-route list of `middleware.js`. -/
def publicRoutes : List String := ["/login", "/", "/unauthorized"]

/-- The `isPublicRoute` test of `middleware.js`, kept in its source shape
(the two `startsWith` tests sit inside the `some` callback without using
the route variable). -/
def isPublicRoute (pathname : String) : Bool :=
  publicRoutes.any fun route =>
    pathname = route || jsStartsWith pathname "/_next" ||
      jsStartsWith pathname "/api/auth"

/-- Result of the edge middleware: pass through, pass through with the
`x-user-role` request header set, or redirect to a path carrying query
parameters in the order the source sets them. -/
inductive MwResult where
  | next : MwResult
  | nextWithRole (role : Json) : MwResult
  | redirect (path : String) (params : List (String × String)) : MwResult

/-- The `middleware` function of `middleware.js`.  `now` is the Unix-seconds
clock reading; `pathname` and `cookies` are those of the request. -/
def middleware (now : Int) (pathname : String)
    (cookies : List (String × String)) : MwResult :=
  if isPublicRoute pathname then .next
  else
    match getIdTokenFromCookies cookies with
    | none => .redirect "/login" [("redirect", pathname)]
    | some idToken =>
      if idToken = "" then .redirect "/login" [("redirect", pathname)]
      else if isTokenExpired now idToken then
        .redirect "/login" [("redirect", pathname), ("error", "session_expired")]
      else
        match getUserRole idToken with
        | none => .redirect "/unauthorized" []
        | some userRole =>
          if checkAuthorization (some userRole) pathname then
            .nextWithRole userRole
          else .redirect "/unauthorized" []

/- ### Lambda event and the shared `extractToken`

The identical `extractToken` appears in both the chatbot handler
(`amplify/functions/chatbot/handler.js`) and the admin handler.  External
collaborators are injected: `verify` models `CognitoJwtVerifier.verify`
(claims on success, rejection otherwise — the verifier is assumed
initialised, i.e. the pool/client environment variables are set). -/

/-- The slice of an API-Gateway Lambda event the modelled handlers read.
`body` is the raw request-body string (API Gateway delivers string bodies;
an absent body makes the JS destructuring of `undefined` throw, see
`chatbotTry`). -/
structure Event where
  headerAuth : Option String
  headerAuthLower : Option String
  queryToken : Option String
  path : Option String
  rawPath : Option String
  httpMethod : Option String
  rcHttpMethod : Option String
  body : Option String

/-- `extractToken`: bearer token from the `Authorization` header in either
casing, else the `token` query-string parameter, else a throw. -/
def extractToken (e : Event) : Except String String :=
  let authHeader := jsOrString e.headerAuth e.headerAuthLower
  if strTruthy authHeader && jsStartsWith (authHeader.getD "") "Bearer " then
    .ok (jsDropChars (authHeader.getD "") 7)
  else if strTruthy e.queryToken then .ok (e.queryToken.getD "")
  else .error "No authorization token found"

/-- An HTTP response of the modelled handlers: status and JSON body.  The
constant `Content-Type`/CORS headers of the source are elided. -/
structure HttpResponse where
  statusCode : Nat
  body : Json

/-- The `{ error: { code, message } }` response shape shared by all error
returns of the handlers. -/
def errorResponse (status : Nat) (code msg : String) : HttpResponse :=
  ⟨status, .obj [("error", .obj [("code", .str code), ("message", .str msg)])]⟩

/- ### Chatbot Lambda handler (`amplify/functions/chatbot/handler.js`) -/

/-- `validateRole` of the chatbot handler: both `user` and `admin` may use
the chatbot; a falsy role claim throws a message mentioning `token`, an
unrecognized one a message mentioning `role`. -/
def validateRole (claims : Json) : Except String Json :=
  let userRole := jsGet claims "custom:role"
  if !(jsTruthyOpt userRole) then .error "User role not found in token"
  else if !(jsStrictEqStrOpt userRole "user") &&
      !(jsStrictEqStrOpt userRole "admin") then .error "Invalid user role"
  else .ok (userRole.getD .null)

/-- One listed object of the knowledge-base bucket: its key and the result
of fetching it (`none` models a throwing `GetObject` or stream read). -/
structure S3Object where
  key : String
  body : Option String

/-- `retrieveKnowledgeBase`: list the `knowledge-base/` prefix (`none`
models a throwing list call or an absent `Contents`, both of which the
source turns into `[]`), skip folder-marker keys, fetch and `JSON.parse`
each object, and skip — never propagate — any per-object failure. -/
def retrieveKnowledgeBase (listing : Option (List S3Object)) : List Json :=
  match listing with
  | none => []
  | some objs =>
    if objs.length = 0 then []
    else objs.foldl (fun docs o =>
      if jsEndsWith o.key "/" then docs
      else match o.body with
        | none => docs
        | some raw =>
          match jsonParse raw with
          | some doc => docs ++ [doc]
          | none => docs) []

/-- The fixed instruction block of `constructPrompt` with the question
interpolated. -/
def promptInstruction (question : String) : String :=
  "Based on the information provided above, please answer the following question. If the answer is not in the provided context, you can use your general knowledge but indicate that the information is not from the knowledge base.\n\nQuestion: "
    ++ question ++ "\n\nAnswer:"

/-- The instruction block up to (excluding) the space before the
interpolated question; its final character is a colon. -/
def instrHead : String :=
  "Based on the information provided above, please answer the following question. If the answer is not in the provided context, you can use your general knowledge but indicate that the information is not from the knowledge base.\n\nQuestion:"

/-- The instruction block after (excluding) the newline that follows the
interpolated question. -/
def instrTail : String := "\nAnswer:"

/-- `constructPrompt`: the context section (omitted entirely for zero
documents, otherwise one `Document {n}: {title}` block per document)
followed by the fixed instruction block. -/
def constructPrompt (question : String) (documents : List Json) : String :=
  let context :=
    if documents.length > 0 then
      documents.enum.foldl
        (fun acc (idoc : Nat × Json) =>
          acc ++ "Document " ++ natToString (idoc.1 + 1) ++ ": " ++
            jsToStringOpt (jsGet idoc.2 "title") ++ "\n" ++
            jsToStringOpt (jsGet idoc.2 "content") ++ "\n\n")
        "Here is relevant information from the knowledge base:\n\n"
    else ""
  context ++ promptInstruction question

/-- `generateResponse`: `bedrockResult` models the Bedrock call up to and
including the `JSON.parse` of its body — `.error m` is a throw with message
`m` (a network/SDK failure, or the runtime-worded `SyntaxError` of a
malformed body), `.ok j` the parsed response body.  A response whose
`content` is a non-empty array yields `content[0].text` (modelled as `null`
when the `text` key is absent, where JS would yield `undefined`); anything
else throws `No content in Bedrock response`; every throw is re-wrapped
with the `Failed to generate response: ` prefix. -/
def generateResponse (bedrockResult : Except String Json) : Except String Json :=
  match bedrockResult with
  | .error m => .error ("Failed to generate response: " ++ m)
  | .ok responseBody =>
    match jsGet responseBody "content" with
    | some (.arr (c :: _)) => .ok ((jsGet c "text").getD .null)
    | _ => .error ("Failed to generate response: No content in Bedrock response")

/-- The injected collaborators of the chatbot handler: the JWT verifier,
the bucket listing, the Bedrock call as a function of the prompt, and the
clock readings used for the fallback conversation id and the timestamp. -/
structure ChatbotDeps where
  verify : String → Option Json
  s3listing : Option (List S3Object)
  bedrock : String → Except String Json
  nowMs : Nat
  isoNow : String

/-- The try-block of the chatbot handler; `.error` is a thrown message
headed for the catch-block dispatcher. -/
def chatbotTry (deps : ChatbotDeps) (e : Event) : Except String HttpResponse := do
  let token ← extractToken e
  let claims ← match deps.verify token with
    | some payload => Except.ok payload
    | none => Except.error "Invalid or expired token"
  let _ ← validateRole claims
  match e.body with
  | none =>
    -- destructuring `undefined` throws a TypeError whose runtime message
    -- names the question property and matches no dispatcher substring
    Except.error "Cannot destructure property question of requestBody as it is undefined."
  | some raw =>
    match jsonParse raw with
    | none => pure (errorResponse 400 "INVALID_REQUEST" "Invalid request body")
    | some requestBody =>
      match jsGet requestBody "question" with
      | some (.str question) =>
        if jsTrim question = "" then
          pure (errorResponse 400 "INVALID_QUESTION"
            "Question is required and must be a non-empty string")
        else
          let documents := retrieveKnowledgeBase deps.s3listing
          let prompt := constructPrompt question documents
          let answer ← generateResponse (deps.bedrock prompt)
          pure ⟨200, .obj [
            ("answer", answer),
            ("conversationId",
              match jsGet requestBody "conversationId" with
              | some v =>
                if jsTruthy v then v
                else .str ("conv-" ++ natToString deps.nowMs)
              | none => .str ("conv-" ++ natToString deps.nowMs)),
            ("sources", .arr (documents.map fun doc => .obj [
              ("documentName", (jsGet doc "title").getD .null),
              ("documentId", (jsGet doc "documentId").getD .null)])),
            ("timestamp", .str deps.isoNow)]⟩
      | _ =>
        pure (errorResponse 400 "INVALID_QUESTION"
          "Question is required and must be a non-empty string")

/-- The catch-block of the chatbot handler: classify the thrown message by
substring. -/
def classifyChatbotError (msg : String) : HttpResponse :=
  if jsIncludes msg "token" || jsIncludes msg "authorization" then
    errorResponse 401 "UNAUTHORIZED" "Authentication failed"
  else if jsIncludes msg "role" then
    errorResponse 403 "FORBIDDEN" "Insufficient permissions"
  else if jsIncludes msg "Bedrock" || jsIncludes msg "generate response" then
    errorResponse 503 "SERVICE_UNAVAILABLE" "AI service temporarily unavailable"
  else errorResponse 500 "INTERNAL_ERROR" "An unexpected error occurred"

/-- The chatbot Lambda `handler`. -/
def chatbotHandler (deps : ChatbotDeps) (e : Event) : HttpResponse :=
  match chatbotTry deps e with
  | .ok resp => resp
  | .error msg => classifyChatbotError msg

/- ### Admin Lambda handler (the JWT-verifying variant) -/

/-- `validateAdminRole`: only the literal `admin` role passes; a falsy role
claim throws a message mentioning `token`, a present non-admin one the
message `Admin role required`. -/
def validateAdminRole (claims : Json) : Except String Json :=
  let userRole := jsGet claims "custom:role"
  if !(jsTruthyOpt userRole) then .error "User role not found in token"
  else if !(jsStrictEqStrOpt userRole "admin") then .error "Admin role required"
  else .ok (userRole.getD .null)

/-- The truthy-chain `a || b || d` on strings. -/
def jsOrDefault (a : Option String) (d : String) : String :=
  if strTruthy a then a.getD d else d

/-- The try-block of the admin handler.  `stats` models `getSystemStats`
up to its Cognito call: `.error m` is the underlying failure message, which
the source wraps before throwing. -/
def adminTry (verify : String → Option Json) (stats : Except String Json)
    (e : Event) : Except String HttpResponse := do
  let token ← extractToken e
  let claims ← match verify token with
    | some payload => Except.ok payload
    | none => Except.error "Invalid or expired token"
  let _ ← validateAdminRole claims
  let path := jsOrDefault (jsOrString e.path e.rawPath) ""
  let httpMethod := jsOrDefault (jsOrString e.httpMethod e.rcHttpMethod) "GET"
  if jsIncludes path "/stats" || httpMethod = "GET" then
    match stats with
    | .ok data => pure ⟨200, data⟩
    | .error m => Except.error ("Failed to retrieve system statistics: " ++ m)
  else pure (errorResponse 404 "NOT_FOUND" "Admin operation not found")

/-- The catch-block of the admin handler. -/
def classifyAdminError (msg : String) : HttpResponse :=
  if jsIncludes msg "token" || jsIncludes msg "authorization" then
    errorResponse 401 "UNAUTHORIZED" "Authentication failed"
  else if jsIncludes msg "role" || jsIncludes msg "Admin" then
    errorResponse 403 "FORBIDDEN" "Admin role required"
  else errorResponse 500 "INTERNAL_ERROR" "An unexpected error occurred"

/-- The admin Lambda `handler`. -/
def adminHandler (verify : String → Option Json) (stats : Except String Json)
    (e : Event) : HttpResponse :=
  match adminTry verify stats e with
  | .ok resp => resp
  | .error msg => classifyAdminError msg

/- ### Chatbot proxy API route (`app/api/chatbot/ask/route.js`) -/

/-- What the proxy route does with a request, modelled up to the point the
outbound call would be made: either an immediate JSON error response, or a
forward — the outbound `fetch` to the backend carrying the bearer token and
the trimmed question. -/
inductive RouteOutcome where
  | response (status : Nat) (code : String) : RouteOutcome
  | forward (idToken : String) (question : String)
      (conversationId : Option Json) : RouteOutcome

/-- The `POST` function of the proxy route, up to its outbound call:
require a `Bearer ` authorization header, parse the JSON body (`none`
models a throwing `request.json()`), validate the question exactly as the
source does (string, non-empty after trimming — no length bound), then
forward. -/
def POST (authHeader : Option String) (body : Option String) : RouteOutcome :=
  if !(strTruthy authHeader && jsStartsWith (authHeader.getD "") "Bearer ") then
    .response 401 "UNAUTHORIZED"
  else
    let idToken := jsDropChars (authHeader.getD "") 7
    match body with
    | none => .response 400 "INVALID_REQUEST"
    | some raw =>
      match jsonParse raw with
      | none => .response 400 "INVALID_REQUEST"
      | some b =>
        match jsGet b "question" with
        | some (.str question) =>
          if jsTrim question = "" then .response 400 "INVALID_QUESTION"
          else .forward idToken (jsTrim question) (jsGet b "conversationId")
        | _ => .response 400 "INVALID_QUESTION"

/-- A 501-character question, one character over the 500-character bound
the specification ascribes to the proxy. -/
def q501 : String := ⟨List.replicate 501 'a'⟩

/-- A concrete verifier accepting exactly the token `tok` with a `user`
role claim, for instantiating handler theorems. -/
def demoVerifyUser : String → Option Json := fun t =>
  if t = "tok" then
    some (.obj [("custom:role", .str "user"), ("sub", .str "u1")])
  else none

/- ### Helper lemmas: the character-list string operations vs the Mathlib
prefix/infix order on lists. -/

theorem charsPrefixOf_iff (p l : List Char) : charsPrefixOf p l = true ↔ p <+: l := by
  induction p generalizing l with
  | nil => simp [charsPrefixOf]
  | cons a as ih =>
    cases l with
    | nil => simp [charsPrefixOf]
    | cons b bs =>
      simp [charsPrefixOf, List.cons_prefix_cons, ih, Bool.and_eq_true,
        decide_eq_true_eq]

theorem charsInfixOf_iff (pat l : List Char) : charsInfixOf pat l = true ↔ pat <:+: l := by
  induction l with
  | nil =>
    simp [charsInfixOf, charsPrefixOf_iff, List.infix_nil, List.prefix_nil]
  | cons c cs ih =>
    simp [charsInfixOf, Bool.or_eq_true, charsPrefixOf_iff, ih,
      List.infix_cons_iff]

theorem jsIncludes_iff (s p : String) :
    jsIncludes s p = true ↔ p.toList <:+: s.toList :=
  charsInfixOf_iff p.toList s.toList

/-- A pattern avoiding a separator character that is a prefix of
`X ++ sep :: Y` is already a prefix of `X`. -/
theorem headMatch_with_sep {sep : Char} {pat : List Char} (X : List Char)
    {Y : List Char}
    (hsep : sep ∉ pat) (h : pat <+: X ++ sep :: Y) : pat <+: X := by
  induction X generalizing pat with
  | nil =>
    cases pat with
    | nil => exact List.nil_prefix
    | cons p ps =>
      rw [List.nil_append, List.cons_prefix_cons] at h
      exact absurd (h.1 ▸ List.mem_cons_self p ps) hsep
  | cons x xs ih =>
    cases pat with
    | nil => exact List.nil_prefix
    | cons p ps =>
      rw [List.cons_append, List.cons_prefix_cons] at h
      rw [List.cons_prefix_cons]
      exact ⟨h.1, ih (fun hm => hsep (List.mem_cons_of_mem p hm)) h.2⟩

/-- An occurrence of a pattern avoiding a separator character inside
`X ++ sep :: Y` lies entirely inside `X` or entirely inside `Y`. -/
theorem occurs_with_sep {sep : Char} {pat X Y : List Char}
    (hsep : sep ∉ pat) (h : pat <:+: X ++ sep :: Y) :
    pat <:+: X ∨ pat <:+: Y := by
  induction X with
  | nil =>
    rw [List.nil_append, List.infix_cons_iff] at h
    cases h with
    | inl hp =>
      have : pat <+: ([] : List Char) :=
        headMatch_with_sep [] hsep (by simpa using hp)
      rw [List.prefix_nil] at this
      refine Or.inl ?_
      rw [this]
    | inr hi => exact Or.inr hi
  | cons x xs ih =>
    rw [List.cons_append, List.infix_cons_iff] at h
    cases h with
    | inl hp =>
      exact Or.inl ( List.IsPrefix.isInfix (headMatch_with_sep (x :: xs) hsep hp))
    | inr hi =>
      cases ih hi with
      | inl h1 => exact Or.inl (List.infix_cons h1)
      | inr h2 => exact Or.inr h2

/-- Extending the haystack on the right preserves an occurrence. -/
theorem occurs_extend_right {pat X Z : List Char} (h : pat <:+: X) :
    pat <:+: X ++ Z :=
  h.trans ( List.IsPrefix.isInfix (List.prefix_append X Z))

theorem strToList_append (a b : String) :
    (a ++ b).toList = a.toList ++ b.toList :=
  String.data_append a b

/-- The instruction block with the question interpolated, re-associated
around the space before and the newline after the question. -/
theorem promptInstruction_split (q : String) :
    (promptInstruction q).toList =
      instrHead.toList ++ ' ' :: (q.toList ++ '\n' :: instrTail.toList) := by
  have ha : instrHead ++ " " =
      "Based on the information provided above, please answer the following question. If the answer is not in the provided context, you can use your general knowledge but indicate that the information is not from the knowledge base.\n\nQuestion: " := by
    decide
  have hb : "\n" ++ instrTail = "\n\nAnswer:" := by decide
  have heq : promptInstruction q =
      (instrHead ++ " ") ++ q ++ ("\n" ++ instrTail) := by
    unfold promptInstruction
    rw [ha, hb]
  rw [heq, strToList_append, strToList_append]
  rw [show (instrHead ++ " ").toList = instrHead.toList ++ [' '] from by decide]
  rw [show ("\n" ++ instrTail).toList = '\n' :: instrTail.toList from by decide]
  simp [List.append_assoc]

/-- A space-free pattern occurring in neither a prefix ending in a space
nor in the remainder does not occur in their concatenation. -/
theorem jsIncludes_sep_append (pre₀ : List Char) {pre m pat : String}
    (hsplit : pre.toList = pre₀ ++ [' ']) (hsp : ' ' ∉ pat.toList)
    (h1 : charsInfixOf pat.toList pre₀ = false)
    (h2 : jsIncludes m pat = false) :
    jsIncludes (pre ++ m) pat = false := by
  cases hres : jsIncludes (pre ++ m) pat with
  | false => rfl
  | true =>
    have hinf := (jsIncludes_iff _ _).mp hres
    rw [strToList_append, hsplit, List.append_assoc,
      List.singleton_append] at hinf
    rcases occurs_with_sep hsp hinf with h | h
    · have := (charsInfixOf_iff _ _).mpr h
      rw [h1] at this
      exact absurd this (by decide)
    · have := (jsIncludes_iff m pat).mpr h
      rw [h2] at this
      exact absurd this (by decide)

/- ### Claim theorems -/

/-- Claim C1: the authorization policy is exactly the two-tier table.  For
every request pathname, role `admin` is allowed on both tiers (in the code,
the admin tier is the pathnames starting with `/admin` and the user tier
the rest); role `user` is allowed exactly on the user tier; and any other
role value — absent (`none`, the JS `null`) or unrecognized (any value that
is not the string `admin` nor the string `user`) — is denied on both tiers,
with `checkAuthorization` returning `false` rather than erring. -/
theorem checkAuthorization_two_tier_policy (pathname : String)
    (role : Option Json) :
    checkAuthorization (some (.str "admin")) pathname = true ∧
    checkAuthorization (some (.str "user")) pathname =
      !(jsStartsWith pathname "/admin") ∧
    (jsStrictEqStrOpt role "admin" = false →
      jsStrictEqStrOpt role "user" = false →
      checkAuthorization role pathname = false) := by
  refine ⟨rfl, ?_, ?_⟩
  · by_cases h : jsStartsWith pathname "/admin" <;>
      simp [checkAuthorization, jsStrictEqStrOpt, jsStrictEqStr, h]
  · intro hadmin huser
    simp [checkAuthorization, hadmin, huser]

/-- Witness for C1 at a concrete admin-tier pathname and an unrecognized
role string. -/
theorem checkAuthorization_two_tier_policy_witness :
    checkAuthorization (some (.str "admin")) "/admin/stats" = true ∧
    checkAuthorization (some (.str "user")) "/admin/stats" =
      !(jsStartsWith "/admin/stats" "/admin") ∧
    checkAuthorization (some (.str "guest")) "/admin/stats" = false := by
  have h := checkAuthorization_two_tier_policy "/admin/stats"
    (some (.str "guest"))
  exact ⟨h.1, h.2.1, h.2.2 (by decide) (by decide)⟩

/-- Claim C2: with a listing of three objects of which one is corrupt —
its body fails to parse as JSON, or (second conjunct) its fetch itself
fails — document retrieval returns exactly the two valid documents, in
order, and never throws: the per-object failure is skipped and the rest of
the batch is still returned. -/
theorem retrieveKnowledgeBase_partial_success
    (k1 k2 k3 b1 b2 b3 : String) (d1 d3 : Json)
    (hk1 : jsEndsWith k1 "/" = false) (hk2 : jsEndsWith k2 "/" = false)
    (hk3 : jsEndsWith k3 "/" = false)
    (hp1 : jsonParse b1 = some d1) (hp2 : jsonParse b2 = none)
    (hp3 : jsonParse b3 = some d3) :
    retrieveKnowledgeBase
        (some [⟨k1, some b1⟩, ⟨k2, some b2⟩, ⟨k3, some b3⟩]) = [d1, d3] ∧
    retrieveKnowledgeBase
        (some [⟨k1, some b1⟩, ⟨k2, none⟩, ⟨k3, some b3⟩]) = [d1, d3] := by
  constructor <;>
    simp [retrieveKnowledgeBase, List.foldl, hk1, hk2, hk3, hp1, hp2, hp3]

/-- Witness for C2: a concrete three-object store whose middle object is
not JSON. -/
theorem retrieveKnowledgeBase_partial_success_witness :
    retrieveKnowledgeBase (some [
      ⟨"knowledge-base/a.json", some "\x7b\"documentId\":\"d1\"\x7d"⟩,
      ⟨"knowledge-base/b.json", some "this is not json"⟩,
      ⟨"knowledge-base/c.json", some "\x7b\"documentId\":\"d3\"\x7d"⟩]) =
      [.obj [("documentId", .str "d1")], .obj [("documentId", .str "d3")]] :=
  (retrieveKnowledgeBase_partial_success
    "knowledge-base/a.json" "knowledge-base/b.json" "knowledge-base/c.json"
    "\x7b\"documentId\":\"d1\"\x7d" "this is not json"
    "\x7b\"documentId\":\"d3\"\x7d"
    (.obj [("documentId", .str "d1")]) (.obj [("documentId", .str "d3")])
    (by decide) (by decide) (by decide) rfl rfl rfl).1

/-- Claim C4: on a protected route, a resolved idToken whose `exp` claim is
strictly in the past makes the middleware redirect to the login page with
both `redirect=<originalPath>` and `error=session_expired` — regardless of
the role claim (no role hypothesis appears: the expiry check runs before
role extraction). -/
theorem middleware_expired_redirect (now : Int) (pathname : String)
    (cookies : List (String × String)) (t : String) (claims : Json) (e : Int)
    (hpub : isPublicRoute pathname = false)
    (hc : getIdTokenFromCookies cookies = some t) (ht : t ≠ "")
    (hd : decodeJWT t = some claims)
    (he : jsGet claims "exp" = some (.num e)) (hlt : e < now) :
    middleware now pathname cookies =
      .redirect "/login" [("redirect", pathname), ("error", "session_expired")] := by
  have hexp : isTokenExpired now t = true := by
    by_cases h0 : e = 0
    · simp [isTokenExpired, hd, he, jsTruthy, h0]
    · simp [isTokenExpired, hd, he, jsTruthy, h0, jsLtNum, jsToNumber, hlt]
  simp [middleware, hpub, hc, ht, hexp]

/-- Witness for C4: a cookie-borne token whose payload is
base64(`\x7b"exp":1\x7d`), evaluated at clock reading 2. -/
theorem middleware_expired_redirect_witness :
    middleware 2 "/user"
      [("CognitoIdentityServiceProvider.a.b.idToken", "h.eyJleHAiOjF9.s")] =
      .redirect "/login" [("redirect", "/user"), ("error", "session_expired")] :=
  middleware_expired_redirect 2 "/user"
    [("CognitoIdentityServiceProvider.a.b.idToken", "h.eyJleHAiOjF9.s")]
    "h.eyJleHAiOjF9.s" (.obj [("exp", .num 1)]) 1
    (by decide) rfl (by decide) rfl rfl (by decide)

/-- Claim C5: `decodeJWT` returns `null` exactly when the token does not
split on `.` into exactly 3 segments or when base64/JSON decoding of the
middle segment fails; otherwise it returns the parse of the decoded middle
segment.  It is a total function — never throwing — by construction. -/
theorem decodeJWT_contract (t : String) :
    (decodeJWT t = none ↔ ((jsSplitDot t).length ≠ 3 ∨
      jsonParse (b64ToUtf8 ((jsSplitDot t).getD 1 "")) = none)) ∧
    ((jsSplitDot t).length = 3 →
      decodeJWT t = jsonParse (b64ToUtf8 ((jsSplitDot t).getD 1 ""))) := by
  constructor
  · by_cases h : (jsSplitDot t).length = 3 <;> simp [decodeJWT, h]
  · intro h
    simp [decodeJWT, h]

/-- Witness for C5 at a concrete well-formed token, together with the
concrete claims map it decodes to. -/
theorem decodeJWT_contract_witness :
    decodeJWT "h.eyJleHAiOjF9.s" =
      jsonParse (b64ToUtf8 ((jsSplitDot "h.eyJleHAiOjF9.s").getD 1 "")) ∧
    decodeJWT "h.eyJleHAiOjF9.s" = some (.obj [("exp", .num 1)]) :=
  ⟨(decodeJWT_contract "h.eyJleHAiOjF9.s").2 (by decide), rfl⟩

/-- Claim C9: a token whose payload cannot be decoded, or decodes to a
claims map without an `exp` key, is treated as expired by `isTokenExpired`,
and on a protected route the middleware therefore redirects to login with
`error=session_expired` — not the no-session redirect (which lacks the
error parameter) and not the unauthorized redirect. -/
theorem isTokenExpired_undecodable_or_no_exp (now : Int) (pathname : String)
    (cookies : List (String × String)) (t : String)
    (hpub : isPublicRoute pathname = false)
    (hc : getIdTokenFromCookies cookies = some t) (ht : t ≠ "")
    (hd : decodeJWT t = none ∨
      ∃ claims, decodeJWT t = some claims ∧ jsGet claims "exp" = none) :
    isTokenExpired now t = true ∧
    middleware now pathname cookies =
      .redirect "/login" [("redirect", pathname), ("error", "session_expired")] := by
  have hexp : isTokenExpired now t = true := by
    cases hd with
    | inl h => simp [isTokenExpired, h]
    | inr h =>
      obtain ⟨claims, h1, h2⟩ := h
      simp [isTokenExpired, h1, h2]
  exact ⟨hexp, by simp [middleware, hpub, hc, ht, hexp]⟩

/-- Witness for C9: the cookie-borne token `x` has one segment, so its
payload cannot be decoded. -/
theorem isTokenExpired_undecodable_or_no_exp_witness :
    isTokenExpired 0 "x" = true ∧
    middleware 0 "/user"
      [("CognitoIdentityServiceProvider.a.b.idToken", "x")] =
      .redirect "/login" [("redirect", "/user"), ("error", "session_expired")] :=
  isTokenExpired_undecodable_or_no_exp 0 "/user"
    [("CognitoIdentityServiceProvider.a.b.idToken", "x")] "x"
    (by decide) rfl (by decide) (Or.inl rfl)

/-- Claim C6: prompt construction with zero retrieved documents omits the
context section entirely — the prompt is exactly the fixed instruction
block with the question interpolated — and the result contains the literal
question text but no `Document` section header.  The `Document` text can
only enter the prompt through the question itself, which the hypothesis
excludes (an assembled header, not a question quoting the word, is what the
property is about). -/
theorem constructPrompt_empty_docs (q : String)
    (hq : jsIncludes q "Document" = false) :
    constructPrompt q [] = promptInstruction q ∧
    jsIncludes (constructPrompt q []) q = true ∧
    jsIncludes (constructPrompt q []) "Document" = false := by
  have h1 : constructPrompt q [] = promptInstruction q := rfl
  refine ⟨h1, ?_, ?_⟩
  · rw [h1]
    refine (jsIncludes_iff _ _).mpr ?_
    rw [promptInstruction_split]
    exact ⟨instrHead.toList ++ [' '], '\n' :: instrTail.toList,
      by simp [List.append_assoc]⟩
  · rw [h1]
    cases hres : jsIncludes (promptInstruction q) "Document" with
    | false => rfl
    | true =>
      have hinf := (jsIncludes_iff _ _).mp hres
      rw [promptInstruction_split] at hinf
      rcases occurs_with_sep (by decide) hinf with h | h
      · exact absurd ((charsInfixOf_iff _ _).mpr h) (by decide)
      · rcases occurs_with_sep (by decide) h with h2 | h2
        · have := (jsIncludes_iff q "Document").mpr h2
          rw [hq] at this
          exact absurd this (by decide)
        · exact absurd ((charsInfixOf_iff _ _).mpr h2) (by decide)

/-- Witness for C6 at a concrete question. -/
theorem constructPrompt_empty_docs_witness :
    jsIncludes "What is the product?" "Document" = false ∧
    (constructPrompt "What is the product?" [] =
        promptInstruction "What is the product?" ∧
      jsIncludes (constructPrompt "What is the product?" [])
        "What is the product?" = true ∧
      jsIncludes (constructPrompt "What is the product?" [])
        "Document" = false) :=
  ⟨by decide, constructPrompt_empty_docs "What is the product?" (by decide)⟩

/-- Claim C7: a request whose token verifies to a claims map carrying a
present (truthy) role value other than the string `admin` is answered by
the admin handler with status 403 and error code `FORBIDDEN`, before any
operation dispatch — only role `admin` reaches the stats operation. -/
theorem adminHandler_non_admin_forbidden
    (verify : String → Option Json) (stats : Except String Json) (e : Event)
    (tok : String) (claims v : Json)
    (hx : extractToken e = .ok tok) (hv : verify tok = some claims)
    (hr : jsGet claims "custom:role" = some v) (htr : jsTruthy v = true)
    (hna : jsStrictEqStr v "admin" = false) :
    adminHandler verify stats e =
      errorResponse 403 "FORBIDDEN" "Admin role required" := by
  have hval : validateAdminRole claims = .error "Admin role required" := by
    simp [validateAdminRole, hr, jsTruthyOpt, htr, jsStrictEqStrOpt, hna]
  have htry : adminTry verify stats e = .error "Admin role required" := by
    simp [adminTry, hx, hv, hval, Bind.bind, Except.bind]
  simp [adminHandler, htry]
  rfl

/-- Witness for C7: a `GET /admin/stats` event with a bearer token whose
claims carry role `user`. -/
theorem adminHandler_non_admin_forbidden_witness :
    adminHandler demoVerifyUser (.ok (.obj []))
      ⟨some "Bearer tok", none, none, some "/admin/stats", none,
        some "GET", none, none⟩ =
      errorResponse 403 "FORBIDDEN" "Admin role required" :=
  adminHandler_non_admin_forbidden demoVerifyUser (.ok (.obj []))
    ⟨some "Bearer tok", none, none, some "/admin/stats", none,
      some "GET", none, none⟩
    "tok" (.obj [("custom:role", .str "user"), ("sub", .str "u1")])
    (.str "user") rfl rfl rfl (by decide) (by decide)

/-- Claim C10: when no `Bearer `-prefixed Authorization header is present
in either casing, a non-empty `token` query-string parameter is accepted as
the credential by the shared `extractToken` of the backend handlers, and
the `No authorization token found` throw happens only when the query
channel is also absent (or empty). -/
theorem extractToken_query_fallback (e : Event) (t : String)
    (h1 : ∀ s, e.headerAuth = some s → jsStartsWith s "Bearer " = false)
    (h2 : ∀ s, e.headerAuthLower = some s → jsStartsWith s "Bearer " = false) :
    (e.queryToken = some t → t ≠ "" → extractToken e = .ok t) ∧
    (strTruthy e.queryToken = false →
      extractToken e = .error "No authorization token found") := by
  have hcond : (strTruthy (jsOrString e.headerAuth e.headerAuthLower) &&
      jsStartsWith ((jsOrString e.headerAuth e.headerAuthLower).getD "")
        "Bearer ") = false := by
    cases ha : e.headerAuth with
    | none =>
      cases hb : e.headerAuthLower with
      | none => simp [jsOrString, strTruthy]
      | some s => simp [jsOrString, h2 s hb]
    | some s =>
      by_cases hs : s = ""
      · subst hs
        cases hb : e.headerAuthLower with
        | none => simp [jsOrString, strTruthy]
        | some s2 => simp [jsOrString, h2 s2 hb]
      · simp [jsOrString, hs, h1 s ha]
  constructor
  · intro hq hne
    simp only [extractToken]
    rw [hcond]
    simp [hq, strTruthy, hne]
  · intro hq
    simp only [extractToken]
    rw [hcond]
    simp [hq]

/-- Witness for C10: a non-Bearer Authorization header with a query token
falls back to the query token; without the query token the extraction
fails. -/
theorem extractToken_query_fallback_witness :
    extractToken ⟨some "Basic x", none, some "qt", none, none, none,
      none, none⟩ = .ok "qt" ∧
    extractToken ⟨some "Basic x", none, none, none, none, none,
      none, none⟩ = .error "No authorization token found" :=
  ⟨(extractToken_query_fallback
      ⟨some "Basic x", none, some "qt", none, none, none, none, none⟩ "qt"
      (fun s hs => by injection hs with h; subst h; decide)
      (fun s hs => by simp at hs)).1 rfl (by decide),
   (extractToken_query_fallback
      ⟨some "Basic x", none, none, none, none, none, none, none⟩ "q"
      (fun s hs => by injection hs with h; subst h; decide)
      (fun s hs => by simp at hs)).2 (by decide)⟩

/-- Claim C3 counterexample: a syntactically valid forward request whose
question is 501 characters long is not rejected — the proxy forwards it
(makes the outbound call), so no 500-character bound is enforced before
the network call. -/
theorem POST_no_length_check_counterexample :
    500 < q501.toList.length ∧
    POST (some "Bearer t") (some ("\x7b\"question\":\"" ++ q501 ++ "\"\x7d")) =
      .forward "t" q501 none :=
  ⟨by decide, rfl⟩

/-- Claim C3 amended: the proxy rejects exactly the non-string and the
empty-after-trim questions with `INVALID_QUESTION` before any outbound
call; it enforces no length bound — a string question with non-empty trim
is forwarded whatever its length.  (The 500-character limit exists only as
the `maxLength` attribute of the client-side input element.) -/
theorem POST_validation (h : Option String) (raw : String) (b : Json)
    (q : String)
    (hauth : strTruthy h = true)
    (hbear : jsStartsWith (h.getD "") "Bearer " = true)
    (hparse : jsonParse raw = some b) :
    (jsGet b "question" = some (.str q) → jsTrim q ≠ "" →
      POST h (some raw) = .forward (jsDropChars (h.getD "") 7) (jsTrim q)
        (jsGet b "conversationId")) ∧
    (jsGet b "question" = some (.str q) → jsTrim q = "" →
      POST h (some raw) = .response 400 "INVALID_QUESTION") ∧
    (∀ v, jsGet b "question" = some v → (∀ s, v ≠ .str s) →
      POST h (some raw) = .response 400 "INVALID_QUESTION") ∧
    (jsGet b "question" = none →
      POST h (some raw) = .response 400 "INVALID_QUESTION") := by
  refine ⟨?_, ?_, ?_, ?_⟩
  · intro hqe hne
    simp [POST, hauth, hbear, hparse, hqe, hne]
  · intro hqe he
    simp [POST, hauth, hbear, hparse, hqe, he]
  · intro v hv hns
    cases v with
    | str s => exact absurd rfl (hns s)
    | null => simp [POST, hauth, hbear, hparse, hv]
    | bool b => simp [POST, hauth, hbear, hparse, hv]
    | num n => simp [POST, hauth, hbear, hparse, hv]
    | arr xs => simp [POST, hauth, hbear, hparse, hv]
    | obj fs => simp [POST, hauth, hbear, hparse, hv]
  · intro hnone
    simp [POST, hauth, hbear, hparse, hnone]

/-- Witness for the amended C3 at a concrete valid request. -/
theorem POST_validation_witness :
    POST (some "Bearer t") (some "\x7b\"question\":\"hi\"\x7d") =
      .forward "t" "hi" none := by
  have h := (POST_validation (some "Bearer t") "\x7b\"question\":\"hi\"\x7d"
    (.obj [("question", .str "hi")]) "hi"
    (by decide) (by decide) rfl).1 rfl (by decide)
  exact h

/-- Claim C8 counterexample: a 2xx model response whose first content
element carries an empty-string text is returned by the chatbot handler as
HTTP 200 with an empty `answer` — the gateway does silently return an
empty string rather than a `SERVICE_UNAVAILABLE`-class error. -/
theorem chatbotHandler_empty_answer_counterexample :
    (chatbotHandler
      ⟨demoVerifyUser, none,
        fun _ => .ok (.obj [("content", .arr [.obj [("text", .str "")]])]),
        5, "T"⟩
      ⟨some "Bearer tok", none, none, none, none, none, none,
        some "\x7b\"question\":\"hi\"\x7d"⟩).statusCode = 200 ∧
    jsGet (chatbotHandler
      ⟨demoVerifyUser, none,
        fun _ => .ok (.obj [("content", .arr [.obj [("text", .str "")]])]),
        5, "T"⟩
      ⟨some "Bearer tok", none, none, none, none, none, none,
        some "\x7b\"question\":\"hi\"\x7d"⟩).body "answer" =
      some (.str "") :=
  ⟨rfl, rfl⟩

/-- Claim C8 amended: a throwing generative-model call (or a body whose
parse throws, message `m`) is mapped to 503 `SERVICE_UNAVAILABLE` provided
`m` contains none of the substrings `token`, `authorization`, `role`
(messages containing them are misrouted to 401/403 by the catch-block
dispatcher); a response with a missing or empty `content` array is always
mapped to 503; but a present `content[0]` whose `text` is the empty string
is returned as a 200 answer (the counterexample), so the gateway is not
empty-string-free. -/
theorem generateResponse_failure_mapping
    (deps : ChatbotDeps) (e : Event) (tok : String) (claims rv : Json)
    (raw : String) (rb : Json) (q : String) (m : String) (j : Json)
    (hx : extractToken e = .ok tok) (hv : deps.verify tok = some claims)
    (hrole : validateRole claims = .ok rv)
    (hbody : e.body = some raw) (hparse : jsonParse raw = some rb)
    (hq : jsGet rb "question" = some (.str q)) (hne : jsTrim q ≠ "") :
    (deps.bedrock (constructPrompt q (retrieveKnowledgeBase deps.s3listing)) =
        .error m →
      jsIncludes m "token" = false → jsIncludes m "authorization" = false →
      jsIncludes m "role" = false →
      chatbotHandler deps e = errorResponse 503 "SERVICE_UNAVAILABLE"
        "AI service temporarily unavailable") ∧
    (deps.bedrock (constructPrompt q (retrieveKnowledgeBase deps.s3listing)) =
        .ok j →
      (jsGet j "content" = none ∨ jsGet j "content" = some (.arr [])) →
      chatbotHandler deps e = errorResponse 503 "SERVICE_UNAVAILABLE"
        "AI service temporarily unavailable") := by
  constructor
  · intro hbed htok hauth hrole'
    have hmsg : chatbotTry deps e =
        .error ("Failed to generate response: " ++ m) := by
      simp [chatbotTry, hx, hv, hrole, hbody, hparse, hq, hne, hbed,
        generateResponse, Bind.bind, Except.bind]
    have hA : jsIncludes ("Failed to generate response: " ++ m) "token" =
        false :=
      jsIncludes_sep_append ("Failed to generate response:").toList
        (by decide) (by decide) (by decide) htok
    have hB : jsIncludes ("Failed to generate response: " ++ m)
        "authorization" = false :=
      jsIncludes_sep_append ("Failed to generate response:").toList
        (by decide) (by decide) (by decide) hauth
    have hC : jsIncludes ("Failed to generate response: " ++ m) "role" =
        false :=
      jsIncludes_sep_append ("Failed to generate response:").toList
        (by decide) (by decide) (by decide) hrole'
    have hD : jsIncludes ("Failed to generate response: " ++ m)
        "generate response" = true := by
      refine (jsIncludes_iff _ _).mpr ?_
      rw [strToList_append]
      exact occurs_extend_right ((charsInfixOf_iff _ _).mp (by decide))
    simp [chatbotHandler, hmsg, classifyChatbotError, hA, hB, hC, hD]
  · intro hbed hcont
    have hmsg : chatbotTry deps e =
        .error "Failed to generate response: No content in Bedrock response" := by
      cases hcont with
      | inl h =>
        simp [chatbotTry, hx, hv, hrole, hbody, hparse, hq, hne, hbed,
          generateResponse, h, Bind.bind, Except.bind]
      | inr h =>
        simp [chatbotTry, hx, hv, hrole, hbody, hparse, hq, hne, hbed,
          generateResponse, h, Bind.bind, Except.bind]
    simp [chatbotHandler, hmsg]
    rfl

/-- Witness for the amended C8: a concrete bedrock connection failure whose
message avoids the dispatcher substrings yields the 503. -/
theorem generateResponse_failure_mapping_witness :
    chatbotHandler
      ⟨demoVerifyUser, none, fun _ => .error "connection refused", 5, "T"⟩
      ⟨some "Bearer tok", none, none, none, none, none, none,
        some "\x7b\"question\":\"hi\"\x7d"⟩ =
      errorResponse 503 "SERVICE_UNAVAILABLE"
        "AI service temporarily unavailable" :=
  (generateResponse_failure_mapping
    ⟨demoVerifyUser, none, fun _ => .error "connection refused", 5, "T"⟩
    ⟨some "Bearer tok", none, none, none, none, none, none,
      some "\x7b\"question\":\"hi\"\x7d"⟩
    "tok" (.obj [("custom:role", .str "user"), ("sub", .str "u1")])
    (.str "user") "\x7b\"question\":\"hi\"\x7d"
    (.obj [("question", .str "hi")]) "hi" "connection refused" .null
    rfl rfl rfl rfl rfl rfl (by decide)).1
    rfl (by decide) (by decide) (by decide)

end CognitoChatbot
